import Mathlib

/-!
Verification of the FIRE tracker projection engine (`app.py` of the
`firetracker_online` repository).

The numeric engine works on Python floats; following the usual shallow
embedding, float arithmetic is modelled by exact real arithmetic (`ℝ`), and
the purely rational fragments (the dashboard's payment formula and the
progress classification, which use only `+ - * / **(nat)` on parsed inputs)
are modelled over `ℚ` so they stay executable.
-/

namespace FireTracker

/-! ### Wealth projection simulator (`processar_simulacao`, app.py lines 74–82)

```python
valores_proj = []
total = investido
for ano in range(anos_ate_reforma + 1):
    total *= (1 + taxa_ajustada)
    for m in range(12):
        total += reforco_mensal * ((1 + taxa_ajustada) ** ((11 - m) / 12))
    valores_proj.append(total)
atingiu_fire = any(v >= fire for v in valores_proj)
```
-/

/-- One iteration of the outer `for ano` loop: a full-year compounding pass
followed by the inner `for m in range(12)` loop of fractionally compounded
monthly contributions.  `(11 - m) / 12` is Python float division of
nonnegative ints, and `**` with a float exponent, modelled by `Real.rpow`. -/
noncomputable def yearStep (taxa_ajustada reforco_mensal total : ℝ) : ℝ :=
  (List.range 12).foldl
    (fun t m => t + reforco_mensal * (1 + taxa_ajustada) ^ (((11 - m : ℕ) : ℝ) / 12))
    (total * (1 + taxa_ajustada))

/-- The outer loop, producing one trajectory point per iteration. -/
noncomputable def projLoop (taxa_ajustada reforco_mensal : ℝ) : ℕ → ℝ → List ℝ
  | 0, _ => []
  | n + 1, total =>
    let t := yearStep taxa_ajustada reforco_mensal total
    t :: projLoop taxa_ajustada reforco_mensal n t

/-- `valores_proj` of app.py lines 74–80.  Python's `range(anos_ate_reforma + 1)`
performs `max (anos_ate_reforma + 1) 0` iterations, i.e. `(anos + 1).toNat`. -/
noncomputable def valores_proj (investido reforco_mensal taxa_ajustada : ℝ)
    (anos_ate_reforma : ℤ) : List ℝ :=
  projLoop taxa_ajustada reforco_mensal (anos_ate_reforma + 1).toNat investido

/-- `atingiu_fire = any(v >= fire for v in valores_proj)` (app.py line 82). -/
def atingiu_fire (valores : List ℝ) (fire : ℝ) : Prop :=
  ∃ v ∈ valores, v ≥ fire

/-- The per-year fractional-compounding credit earned by the 12 monthly
contributions: `Σ_{m=0}^{11} (1 + r) ^ ((11 - m) / 12)`. -/
noncomputable def sumFrac (taxa_ajustada : ℝ) : ℝ :=
  ∑ m ∈ Finset.range 12, (1 + taxa_ajustada) ^ (((11 - m : ℕ) : ℝ) / 12)

/-- The year-over-year recurrence stated by the specification:
`total_y = total_{y-1} * (1 + r) + c * Σ_{m=0}^{11} (1 + r)^((11-m)/12)`. -/
noncomputable def passoAno (taxa_ajustada reforco_mensal total : ℝ) : ℝ :=
  total * (1 + taxa_ajustada) + reforco_mensal * sumFrac taxa_ajustada

/-- The specification's closed recurrence for trajectory point `y`
(0-indexed), with `total_{-1} = v0`. -/
noncomputable def totalRec (v0 reforco_mensal taxa_ajustada : ℝ) : ℕ → ℝ
  | 0 => passoAno taxa_ajustada reforco_mensal v0
  | y + 1 => passoAno taxa_ajustada reforco_mensal (totalRec v0 reforco_mensal taxa_ajustada y)

lemma foldl_add_range (f : ℕ → ℝ) (init : ℝ) (n : ℕ) :
    (List.range n).foldl (fun t m => t + f m) init = init + ∑ m ∈ Finset.range n, f m := by
  induction n generalizing init with
  | zero => simp
  | succ k ih =>
      rw [List.range_succ, List.foldl_append, ih, Finset.sum_range_succ]
      simp [add_assoc]

lemma yearStep_eq (r c total : ℝ) : yearStep r c total = passoAno r c total := by
  rw [yearStep, passoAno, sumFrac, foldl_add_range, Finset.mul_sum]

lemma totalRec_eq_iterate (v c r : ℝ) (y : ℕ) :
    totalRec v c r y = (passoAno r c)^[y + 1] v := by
  induction y with
  | zero => simp [totalRec]
  | succ k ih => simp [totalRec, ih, Function.iterate_succ_apply']

lemma projLoop_eq_map (r c : ℝ) (n : ℕ) (t : ℝ) :
    projLoop r c n t = (List.range n).map (fun i => (passoAno r c)^[i + 1] t) := by
  induction n generalizing t with
  | zero => simp [projLoop]
  | succ k ih =>
      rw [projLoop, List.range_succ_eq_map]
      simp only [List.map_cons, List.map_map]
      refine congrArg₂ _ (by simp [yearStep_eq]) ?_
      rw [ih (yearStep r c t)]
      refine List.map_congr_left fun i _ => ?_
      simp [Function.comp, yearStep_eq, Function.iterate_succ_apply]

lemma valores_proj_nat (v c r : ℝ) (anos : ℕ) :
    valores_proj v c r (anos : ℤ) =
      (List.range (anos + 1)).map (totalRec v c r) := by
  have h : ((anos : ℤ) + 1).toNat = anos + 1 := by omega
  rw [valores_proj, h, projLoop_eq_map]
  exact List.map_congr_left fun i _ => (totalRec_eq_iterate v c r i).symm

/-- Claim C1: for every initial value, monthly contribution, real rate and
horizon `anos ≥ 0`, the projection loop of `processar_simulacao` produces
exactly `anos + 1` trajectory points, and point `y` (0-indexed) equals the
recurrence `total_y = total_{y-1} * (1 + r) + c * Σ_{m=0}^{11} (1+r)^((11-m)/12)`
with `total_{-1} = v0`; in particular point 0 is the recurrence applied once
to `v0` (one full compounding pass plus the 12 fractionally compounded
contributions), not the raw initial value. -/
theorem proj_trajectory_recurrence (v c r : ℝ) (anos : ℕ) :
    (valores_proj v c r (anos : ℤ)).length = anos + 1 ∧
    valores_proj v c r (anos : ℤ) = (List.range (anos + 1)).map (totalRec v c r) := by
  refine ⟨?_, valores_proj_nat v c r anos⟩
  rw [valores_proj_nat]
  simp

/-- Claim C6: for a negative horizon (retirement age before current age) the
projection loop of `processar_simulacao` runs zero iterations, the trajectory
is empty, and the `any`-scan for reaching FIRE over that empty trajectory is
false.  (In the total Lean model nothing can raise; the absence of an
empty-sequence crash is reflected by `atingiu_fire [] fire` being provably
false rather than undefined.) -/
theorem proj_negative_horizon (v c r fire : ℝ) (anos : ℤ) (h : anos < 0) :
    valores_proj v c r anos = [] ∧ ¬ atingiu_fire (valores_proj v c r anos) fire := by
  have hz : (anos + 1).toNat = 0 := by omega
  have he : valores_proj v c r anos = [] := by rw [valores_proj, hz, projLoop]
  refine ⟨he, ?_⟩
  rw [he]
  rintro ⟨v, hv, -⟩
  exact absurd hv (List.not_mem_nil v)

theorem proj_negative_horizon_witness :
    ((-1 : ℤ) < 0) ∧
      (valores_proj 1000 500 (3 / 100) (-1) = [] ∧
        ¬ atingiu_fire (valores_proj 1000 500 (3 / 100) (-1)) 600000) :=
  ⟨by decide, proj_negative_horizon 1000 500 (3 / 100) 600000 (-1) (by decide)⟩

lemma sumFrac_nonneg {r : ℝ} (hr : 0 ≤ r) : 0 ≤ sumFrac r := by
  refine Finset.sum_nonneg fun m _ => ?_
  exact Real.rpow_nonneg (by linarith) _

lemma passoAno_nonneg {r c t : ℝ} (hr : 0 ≤ r) (hc : 0 ≤ c) (ht : 0 ≤ t) :
    0 ≤ passoAno r c t := by
  have h1 : 0 ≤ t * (1 + r) := mul_nonneg ht (by linarith)
  have h2 : 0 ≤ c * sumFrac r := mul_nonneg hc (sumFrac_nonneg hr)
  rw [passoAno]; linarith

lemma le_passoAno {r c t : ℝ} (hr : 0 ≤ r) (hc : 0 ≤ c) (ht : 0 ≤ t) :
    t ≤ passoAno r c t := by
  have h2 : 0 ≤ c * sumFrac r := mul_nonneg hc (sumFrac_nonneg hr)
  have h3 : 0 ≤ t * r := mul_nonneg ht hr
  rw [passoAno]; nlinarith

lemma projLoop_chain {r c : ℝ} (hr : 0 ≤ r) (hc : 0 ≤ c) :
    ∀ (n : ℕ) (t : ℝ), 0 ≤ t → List.Chain' (fun a b => a ≤ b) (projLoop r c n t)
  | 0, _, _ => by simp [projLoop]
  | n + 1, t, ht => by
      rw [projLoop]
      have ht' : 0 ≤ yearStep r c t := by
        rw [yearStep_eq]; exact passoAno_nonneg hr hc ht
      refine List.chain'_cons'.mpr ⟨?_, projLoop_chain hr hc n _ ht'⟩
      intro y hy
      cases n with
      | zero => simp [projLoop] at hy
      | succ m =>
          rw [projLoop] at hy
          simp only [List.head?_cons, Option.mem_def, Option.some.injEq] at hy
          subst hy
          simp only [yearStep_eq] at ht' ⊢
          exact le_passoAno hr hc ht'

/-- Claim C7: for nonnegative initial value, real rate and monthly
contribution, the projection trajectory of `processar_simulacao` is
non-decreasing year over year. -/
theorem proj_monotone (v c r : ℝ) (anos : ℤ) (hv : 0 ≤ v) (hr : 0 ≤ r) (hc : 0 ≤ c) :
    List.Chain' (fun a b => a ≤ b) (valores_proj v c r anos) :=
  projLoop_chain hr hc _ v hv

theorem proj_monotone_witness :
    (0 : ℝ) ≤ 1000 ∧ (0 : ℝ) ≤ 3 / 100 ∧ (0 : ℝ) ≤ 500 ∧
      List.Chain' (fun a b => a ≤ b) (valores_proj 1000 500 (3 / 100) 2) :=
  ⟨by norm_num, by norm_num, by norm_num,
    proj_monotone 1000 500 (3 / 100) 2 (by norm_num) (by norm_num) (by norm_num)⟩

/-! ### Monthly-stepping variant (`calcular_simulacao_fire`, app.py lines 122–149)

```python
meses_ate_reforma = max(0, (idade_reforma - idade_atual) * 12)
valor_fire = valor_atual
valor_coast = valor_atual
taxa_mensal = (1 + taxa_juros_anual) ** (1/12) - 1
mes = None
for mes in range(meses_ate_reforma):
    valor_fire = valor_fire * (1 + taxa_mensal) + reforco_mensal
    valores_fire.append(valor_fire)
    valor_coast = valor_coast * (1 + taxa_mensal)
    valores_coast.append(valor_coast)
    if valor_fire >= objetivo:
        break
if mes is not None:
    anos_ate_fire = (mes + 1) / 12
else:
    anos_ate_fire = 0
return anos_ate_fire, valores_fire, valores_coast
```

The loop is modelled by `simSteps`, which returns the number of iterations
executed together with the two accumulated lists; `mes + 1` after the loop is
exactly that iteration count, and `mes is None` exactly when
`meses_ate_reforma = 0`. -/

/-- The loop body with early exit: both values are updated and appended
before the crossing test. -/
noncomputable def simSteps (taxa_mensal reforco_mensal objetivo : ℝ) :
    ℕ → ℝ → ℝ → ℕ × List ℝ × List ℝ
  | 0, _, _ => (0, [], [])
  | n + 1, valor_fire, valor_coast =>
    let vf := valor_fire * (1 + taxa_mensal) + reforco_mensal
    let vc := valor_coast * (1 + taxa_mensal)
    if vf ≥ objetivo then (1, [vf], [vc])
    else
      let r := simSteps taxa_mensal reforco_mensal objetivo n vf vc
      (r.1 + 1, vf :: r.2.1, vc :: r.2.2)

/-- `calcular_simulacao_fire` of app.py lines 122–149, returning
`(anos_ate_fire, valores_fire, valores_coast)`. -/
noncomputable def calcular_simulacao_fire (valor_atual reforco_mensal taxa_juros_anual
    objetivo : ℝ) (idade_atual idade_reforma : ℤ) : ℝ × List ℝ × List ℝ :=
  let meses_ate_reforma := ((idade_reforma - idade_atual) * 12).toNat
  let taxa_mensal := (1 + taxa_juros_anual) ^ ((1 : ℝ) / 12) - 1
  let r := simSteps taxa_mensal reforco_mensal objetivo meses_ate_reforma valor_atual valor_atual
  let anos_ate_fire : ℝ := if meses_ate_reforma = 0 then 0 else (r.1 : ℝ) / 12
  (anos_ate_fire, r.2.1, r.2.2)

lemma simSteps_lengths (tm c obj : ℝ) :
    ∀ (n : ℕ) (vf vc : ℝ),
      (simSteps tm c obj n vf vc).2.1.length = (simSteps tm c obj n vf vc).1 ∧
      (simSteps tm c obj n vf vc).2.2.length = (simSteps tm c obj n vf vc).1
  | 0, _, _ => by simp [simSteps]
  | n + 1, vf, vc => by
      rw [simSteps]
      split
      · simp
      · have ih := simSteps_lengths tm c obj n (vf * (1 + tm) + c) (vc * (1 + tm))
        simp [ih.1, ih.2]

/-- Claim C8: the FIRE and Coast-FIRE trajectories returned by
`calcular_simulacao_fire` always have the same length (each iteration appends
exactly one value to each list before the early-exit check), equal to the
number of months actually simulated. -/
theorem sim_trajectories_same_length (v c t obj : ℝ) (ia ir : ℤ) :
    (calcular_simulacao_fire v c t obj ia ir).2.1.length =
      (calcular_simulacao_fire v c t obj ia ir).2.2.length := by
  rw [calcular_simulacao_fire]
  have h := simSteps_lengths ((1 + t) ^ ((1 : ℝ) / 12) - 1) c obj
    ((ir - ia) * 12).toNat v v
  simp only []
  rw [h.1, h.2]

lemma simSteps_no_cross (tm c obj : ℝ) :
    ∀ (n : ℕ) (vf vc : ℝ),
      (∀ x ∈ (simSteps tm c obj n vf vc).2.1, x < obj) →
      (simSteps tm c obj n vf vc).1 = n
  | 0, _, _, _ => by simp [simSteps]
  | n + 1, vf, vc, h => by
      rw [simSteps] at h ⊢
      split at h
      · rename_i hcross
        exact absurd (h _ (by simp)) (not_lt.mpr hcross)
      · rename_i hcross
        simp only [List.mem_cons] at h
        have ih := simSteps_no_cross tm c obj n (vf * (1 + tm) + c) (vc * (1 + tm))
          (fun x hx => h x (Or.inr hx))
        simp [ih, hcross]

/-- Claim C2 (amended): if the FIRE-with-contributions value never reaches the
target within a positive horizon of `meses` months, `calcular_simulacao_fire`
returns `anos_ate_fire = meses / 12` (the full horizon, because the loop
variable `mes` ends at `meses - 1`, which is not `None`); the value 0 is
returned exactly when the horizon is 0 months. -/
theorem sim_never_reached_full_horizon (v c t obj : ℝ) (ia ir : ℤ)
    (hm : 0 < ((ir - ia) * 12).toNat)
    (hnever : ∀ x ∈ (calcular_simulacao_fire v c t obj ia ir).2.1, x < obj) :
    (calcular_simulacao_fire v c t obj ia ir).1 =
      ((((ir - ia) * 12).toNat : ℕ) : ℝ) / 12 := by
  rw [calcular_simulacao_fire] at hnever ⊢
  simp only [] at hnever ⊢
  rw [if_neg (by omega)]
  rw [simSteps_no_cross _ _ _ _ _ _ hnever]

lemma simSteps_zero_case : ∀ n : ℕ,
    simSteps 0 0 1 n 0 0 = (n, List.replicate n 0, List.replicate n 0)
  | 0 => by simp [simSteps]
  | n + 1 => by
      rw [simSteps]
      norm_num
      rw [simSteps_zero_case n]
      simp [List.replicate_succ]

lemma calc_sim_zero_eval :
    calcular_simulacao_fire 0 0 0 1 30 31 =
      (1, List.replicate 12 0, List.replicate 12 0) := by
  rw [calcular_simulacao_fire]
  have htm : (1 + (0 : ℝ)) ^ ((1 : ℝ) / 12) - 1 = 0 := by
    rw [add_zero, Real.one_rpow]; ring
  have hn : (((31 : ℤ) - 30) * 12).toNat = 12 := by decide
  rw [htm, hn, simSteps_zero_case 12]
  norm_num

/-- Claim C2 counterexample: with `valor_atual = 0`, `reforco_mensal = 0`,
rate 0, target 1 and a 12-month horizon, the target is never reached within
the horizon, yet `anos_ate_fire = 1`, not the claimed sentinel 0. -/
theorem sim_never_reached_counterexample :
    (∀ x ∈ (calcular_simulacao_fire 0 0 0 1 30 31).2.1, x < 1) ∧
      (calcular_simulacao_fire 0 0 0 1 30 31).1 ≠ 0 := by
  rw [calc_sim_zero_eval]
  constructor
  · intro x hx
    simp only [List.eq_of_mem_replicate hx]
    norm_num
  · norm_num

theorem sim_never_reached_full_horizon_witness :
    0 < (((31 : ℤ) - 30) * 12).toNat ∧
      (calcular_simulacao_fire 0 0 0 1 30 31).1 =
        (((((31 : ℤ) - 30) * 12).toNat : ℕ) : ℝ) / 12 := by
  refine ⟨by decide, sim_never_reached_full_horizon 0 0 0 1 30 31 (by decide) ?_⟩
  rw [calc_sim_zero_eval]
  intro x hx
  simp only [List.eq_of_mem_replicate hx]
  norm_num

/-- Claim C9 (amended): with a horizon of at least one month,
`calcular_simulacao_fire` always performs at least one monthly step — the
crossing test only runs after a month's growth and contribution are applied.
If moreover the annual rate, the contribution and the target are nonnegative
and the initial value already meets or exceeds the target, the value is still
at or above target after that first month, so the function returns
`anos_ate_fire = 1/12` (never 0) and one-element trajectories.  (Without the
nonnegativity assumptions the first step can drop the value below the target
again, see the counterexample.) -/
theorem sim_at_goal_one_step (v c t obj : ℝ) (ia ir : ℤ)
    (hm : 0 < ((ir - ia) * 12).toNat) (ht : 0 ≤ t) (hc : 0 ≤ c)
    (hobj : 0 ≤ obj) (hv : obj ≤ v) :
    (calcular_simulacao_fire v c t obj ia ir).1 = 1 / 12 ∧
      (calcular_simulacao_fire v c t obj ia ir).2.1.length = 1 ∧
      (calcular_simulacao_fire v c t obj ia ir).2.2.length = 1 := by
  obtain ⟨n, hn⟩ : ∃ n, ((ir - ia) * 12).toNat = n + 1 :=
    ⟨((ir - ia) * 12).toNat - 1, by omega⟩
  have htm : 0 ≤ (1 + t) ^ ((1 : ℝ) / 12) - 1 := by
    have h1 : (1 : ℝ) ≤ (1 + t) ^ ((1 : ℝ) / 12) :=
      Real.one_le_rpow (by linarith) (by norm_num)
    linarith
  have hv0 : 0 ≤ v := le_trans hobj hv
  have hstep : obj ≤ v * (1 + ((1 + t) ^ ((1 : ℝ) / 12) - 1)) + c := by
    have h2 : v * 1 ≤ v * (1 + ((1 + t) ^ ((1 : ℝ) / 12) - 1)) :=
      mul_le_mul_of_nonneg_left (by linarith) hv0
    rw [mul_one] at h2
    linarith
  rw [calcular_simulacao_fire]
  simp only [hn]
  rw [simSteps, if_pos hstep]
  norm_num

theorem sim_at_goal_one_step_witness :
    0 < (((31 : ℤ) - 30) * 12).toNat ∧ (0 : ℝ) ≤ 0 ∧ (0 : ℝ) ≤ 500 ∧
      (0 : ℝ) ≤ 1000 ∧ (1000 : ℝ) ≤ 2000 ∧
      ((calcular_simulacao_fire 2000 500 0 1000 30 31).1 = 1 / 12 ∧
        (calcular_simulacao_fire 2000 500 0 1000 30 31).2.1.length = 1 ∧
        (calcular_simulacao_fire 2000 500 0 1000 30 31).2.2.length = 1) :=
  ⟨by decide, le_refl 0, by norm_num, by norm_num, by norm_num,
    sim_at_goal_one_step 2000 500 0 1000 30 31 (by decide) (le_refl 0)
      (by norm_num) (by norm_num) (by norm_num)⟩

lemma simSteps_halving : ∀ (n : ℕ) (vf vc : ℝ), 0 < vf → vf ≤ 100 →
    (simSteps (-(1 / 2)) 0 100 n vf vc).1 = n ∧
      (simSteps (-(1 / 2)) 0 100 n vf vc).2.1.length = n
  | 0, _, _, _, _ => by simp [simSteps]
  | n + 1, vf, vc, h0, h100 => by
      rw [simSteps]
      have hval : vf * (1 + -(1 / 2)) + 0 = vf / 2 := by ring
      have hlt : ¬ vf * (1 + -(1 / 2)) + 0 ≥ 100 := by
        rw [hval]; push_neg; linarith
      rw [if_neg hlt]
      have ih := simSteps_halving n (vf * (1 + -(1 / 2)) + 0) (vc * (1 + -(1 / 2)))
        (by rw [hval]; linarith) (by rw [hval]; linarith)
      constructor
      · show (simSteps (-(1 / 2)) 0 100 n (vf * (1 + -(1 / 2)) + 0)
            (vc * (1 + -(1 / 2)))).1 + 1 = n + 1
        rw [ih.1]
      · show ((vf * (1 + -(1 / 2)) + 0) :: (simSteps (-(1 / 2)) 0 100 n
            (vf * (1 + -(1 / 2)) + 0) (vc * (1 + -(1 / 2)))).2.1).length = n + 1
        rw [List.length_cons, ih.2]

lemma rpow_taxa_halving : (1 + ((1 : ℝ) / 4096 - 1)) ^ ((1 : ℝ) / 12) - 1 = -(1 / 2) := by
  have h1 : (1 + ((1 : ℝ) / 4096 - 1)) = ((1 : ℝ) / 2) ^ (12 : ℕ) := by norm_num
  have h2 : ((1 : ℝ) / 12) = (((12 : ℕ) : ℝ))⁻¹ := by norm_num
  rw [h1, h2, Real.pow_rpow_inv_natCast (by norm_num) (by norm_num)]
  norm_num

/-- Claim C9 counterexample: with a 12-month horizon, an initial value exactly
at the target (100), no contributions, and annual rate `1/4096 - 1` (so the
monthly rate is `-1/2`), the first month drops the value to 50 and it never
recovers, so the function returns `anos_ate_fire = 1` with 12-element
trajectories — not `1/12` with one-element trajectories. -/
theorem sim_at_goal_counterexample :
    0 < (((31 : ℤ) - 30) * 12).toNat ∧ (100 : ℝ) ≤ 100 ∧
      (calcular_simulacao_fire 100 0 (1 / 4096 - 1) 100 30 31).1 ≠ 1 / 12 ∧
      (calcular_simulacao_fire 100 0 (1 / 4096 - 1) 100 30 31).2.1.length ≠ 1 := by
  refine ⟨by decide, le_refl _, ?_⟩
  rw [calcular_simulacao_fire]
  have hn : (((31 : ℤ) - 30) * 12).toNat = 12 := by decide
  rw [hn, rpow_taxa_halving]
  have h := simSteps_halving 12 100 100 (by norm_num) (by norm_num)
  rw [h.1] at *
  constructor
  · rw [if_neg (by norm_num)]
    norm_num
  · rw [h.2]
    norm_num

/-! ### Progress evaluator (`calcular_resumo_fire_dashboard`, app.py lines 223–307)

The dashboard's arithmetic uses only rational operations on its parsed
inputs (`taxa_mensal = taxa_ajustada / 12`, natural-number exponents), so it
is modelled executably over `ℚ`. -/

/-- The theoretical monthly payment block, app.py lines 254–262:

```python
anos = max(0, idade_objetivo - idade_atual)
meses = anos * 12
fator = (1 + taxa_mensal) ** meses - 1 if meses > 0 else 0
if fator > 0 and taxa_mensal != 0:
    pmt = fire * taxa_mensal / fator
else:
    pmt = fire / meses if meses > 0 else fire
```
-/
def pmt_dashboard (fire taxa_mensal : ℚ) (meses : ℕ) : ℚ :=
  let fator : ℚ := if 0 < meses then (1 + taxa_mensal) ^ meses - 1 else 0
  if 0 < fator ∧ taxa_mensal ≠ 0 then fire * taxa_mensal / fator
  else if 0 < meses then fire / (meses : ℚ) else fire

/-- `meses` as computed on app.py lines 254–255 from the two ages. -/
def meses_dashboard (idade_atual idade_objetivo : ℤ) : ℕ :=
  ((max 0 (idade_objetivo - idade_atual)) * 12).toNat

/-- Claim C3 counterexample: with `fire = 600000`, `taxa_mensal = -1/100` and
`meses = 12`, the monthly rate is nonzero and the annuity denominator
`(1 + taxa_mensal)^12 - 1` is nonzero (it is negative), yet the code takes the
straight-line branch (`fator > 0` fails) and returns `600000 / 12 = 50000`,
not the annuity formula's value. -/
theorem pmt_dashboard_counterexample :
    (-1 / 100 : ℚ) ≠ 0 ∧ (1 + (-1 / 100 : ℚ)) ^ (12 : ℕ) - 1 ≠ 0 ∧
      pmt_dashboard 600000 (-1 / 100) 12 ≠
        600000 * (-1 / 100) / ((1 + (-1 / 100 : ℚ)) ^ (12 : ℕ) - 1) := by
  refine ⟨by norm_num, by norm_num, ?_⟩
  rw [pmt_dashboard]
  norm_num

/-- Claim C3 (amended): in the Progress Evaluator, the required monthly
payment equals `fire * taxa_mensal / ((1 + taxa_mensal)^meses - 1)` whenever
`meses > 0`, the rate is nonzero and that denominator is strictly positive;
it degrades to the straight-line `fire / meses` when `meses > 0` but the rate
is zero or the denominator is not positive; and when `meses = 0` it is `fire`
itself (not `fire / meses`). -/
theorem pmt_dashboard_cases (fire taxa_mensal : ℚ) (meses : ℕ) :
    (0 < meses → taxa_mensal ≠ 0 → 0 < (1 + taxa_mensal) ^ meses - 1 →
      pmt_dashboard fire taxa_mensal meses =
        fire * taxa_mensal / ((1 + taxa_mensal) ^ meses - 1)) ∧
    (0 < meses → (taxa_mensal = 0 ∨ (1 + taxa_mensal) ^ meses - 1 ≤ 0) →
      pmt_dashboard fire taxa_mensal meses = fire / (meses : ℚ)) ∧
    (meses = 0 → pmt_dashboard fire taxa_mensal meses = fire) := by
  refine ⟨fun hm ht hf => ?_, fun hm hor => ?_, fun hm => ?_⟩
  · rw [pmt_dashboard]
    simp only [if_pos hm]
    rw [if_pos ⟨hf, ht⟩]
  · rw [pmt_dashboard]
    simp only [if_pos hm]
    rcases hor with h0 | hneg
    · rw [if_neg (by simp [h0])]
    · rw [if_neg (fun hand => absurd hand.1 (not_lt.mpr hneg))]
  · subst hm
    rw [pmt_dashboard]
    norm_num

theorem pmt_dashboard_cases_witness :
    pmt_dashboard 600000 (1 / 100) 12 =
        600000 * (1 / 100) / ((1 + (1 / 100 : ℚ)) ^ (12 : ℕ) - 1) ∧
      pmt_dashboard 600000 0 12 = 600000 / (12 : ℚ) ∧
      pmt_dashboard 600000 (1 / 100) 0 = 600000 :=
  ⟨(pmt_dashboard_cases 600000 (1 / 100) 12).1 (by norm_num) (by norm_num) (by norm_num),
    (pmt_dashboard_cases 600000 0 12).2.1 (by norm_num) (Or.inl rfl),
    (pmt_dashboard_cases 600000 (1 / 100) 0).2.2 rfl⟩

/-- The four progress states emitted on app.py lines 284–292. -/
inductive Estado
  | atrasado
  | adiantado
  | no_caminho
  | sem_historico
deriving DecidableEq

/-- The comparison block, app.py lines 281–292:

```python
diferenca = valor_portefolio - valor_esperado_hoje
if valor_esperado_hoje > 0:
    if diferenca < -abs(valor_esperado_hoje) * 0.05:
        estado = "Atrasado"
    elif diferenca > abs(valor_esperado_hoje) * 0.05:
        estado = "Adiantado"
    else:
        estado = "No caminho certo"
else:
    estado = "Sem historico suficiente"
```
-/
def classificar_estado (valor_esperado_hoje valor_portefolio : ℚ) : Estado :=
  let diferenca := valor_portefolio - valor_esperado_hoje
  if 0 < valor_esperado_hoje then
    if diferenca < -(|valor_esperado_hoje| * (5 / 100)) then .atrasado
    else if |valor_esperado_hoje| * (5 / 100) < diferenca then .adiantado
    else .no_caminho
  else .sem_historico

/-- Claim C5: the Progress Evaluator classifies as behind exactly when the
actual value is strictly more than 5% below the expected value, as ahead
exactly when strictly more than 5% above, as on track otherwise (a difference
of exactly ±5% is on track), and as insufficient history exactly when the
expected value is not positive. -/
theorem classificar_estado_spec (e a : ℚ) :
    (classificar_estado e a = .atrasado ↔ 0 < e ∧ a < e - e * (5 / 100)) ∧
      (classificar_estado e a = .adiantado ↔ 0 < e ∧ e + e * (5 / 100) < a) ∧
      (classificar_estado e a = .no_caminho ↔
        0 < e ∧ e - e * (5 / 100) ≤ a ∧ a ≤ e + e * (5 / 100)) ∧
      (classificar_estado e a = .sem_historico ↔ e ≤ 0) := by
  simp only [classificar_estado]
  rcases lt_or_le 0 e with he | he
  · rw [abs_of_pos he]
    simp only [if_pos he]
    split_ifs with h1 h2
    · exact ⟨⟨fun _ => ⟨he, by linarith⟩, fun _ => rfl⟩,
        ⟨fun h => absurd h (by decide),
          fun hx => absurd hx.2 (not_lt.mpr (by linarith))⟩,
        ⟨fun h => absurd h (by decide),
          fun hx => absurd hx.2.1 (not_le.mpr (by linarith))⟩,
        ⟨fun h => absurd h (by decide), fun hx => absurd he (not_lt.mpr hx)⟩⟩
    · exact ⟨⟨fun h => absurd h (by decide),
          fun hx => absurd (show a - e < -(e * (5 / 100)) by linarith [hx.2]) h1⟩,
        ⟨fun _ => ⟨he, by linarith⟩, fun _ => rfl⟩,
        ⟨fun h => absurd h (by decide),
          fun hx => absurd h2 (not_lt.mpr (by linarith [hx.2.2]))⟩,
        ⟨fun h => absurd h (by decide), fun hx => absurd he (not_lt.mpr hx)⟩⟩
    · push_neg at h1 h2
      exact ⟨⟨fun h => absurd h (by decide),
          fun hx => absurd hx.2 (not_lt.mpr (by linarith))⟩,
        ⟨fun h => absurd h (by decide),
          fun hx => absurd hx.2 (not_lt.mpr (by linarith))⟩,
        ⟨fun _ => ⟨he, by linarith, by linarith⟩, fun _ => rfl⟩,
        ⟨fun h => absurd h (by decide), fun hx => absurd he (not_lt.mpr hx)⟩⟩
  · rw [if_neg (not_lt.mpr he)]
    exact ⟨⟨fun h => absurd h (by decide), fun hx => absurd hx.1 (not_lt.mpr he)⟩,
      ⟨fun h => absurd h (by decide), fun hx => absurd hx.1 (not_lt.mpr he)⟩,
      ⟨fun h => absurd h (by decide), fun hx => absurd hx.1 (not_lt.mpr he)⟩,
      ⟨fun _ => he, fun _ => rfl⟩⟩

/-! ### Simulation record store (`processar_simulacao`, app.py lines 100–109)

```python
if SIMULACOES_CSV.exists():
    df = pd.read_csv(SIMULACOES_CSV)
    hoje = datetime.now().strftime("%Y-%m-%d")
    if "Data" in df.columns:
        df = df[df["Data"] != hoje]
    df = pd.concat([df, pd.DataFrame([sim_data])], ignore_index=True)
else:
    df = pd.DataFrame([sim_data])
df.to_csv(SIMULACOES_CSV, index=False)
```

The CSV is modelled as a list of rows, each a pair of its `Data` column and
the rest of the record; a fresh store is the empty list, which makes the
`else` branch the same filter-and-append operation. -/

/-- One write to the simulation record store: drop any rows whose `Data`
equals today's date, then append the new row (dated today). -/
def append_or_replace {α : Type} (registos : List (String × α)) (hoje : String)
    (novo : α) : List (String × α) :=
  registos.filter (fun r => r.1 != hoje) ++ [(hoje, novo)]

/-- Claim C4: writing a record when one already exists for the same calendar
date replaces it rather than duplicating it — after two writes on the same
date the store holds exactly one record for that date, equal to the second
write, and the records for every other date are unchanged. -/
theorem store_last_write_wins {α : Type} (registos : List (String × α))
    (hoje : String) (r1 r2 : α) :
    ((append_or_replace (append_or_replace registos hoje r1) hoje r2).filter
        (fun r => r.1 == hoje) = [(hoje, r2)]) ∧
      ((append_or_replace (append_or_replace registos hoje r1) hoje r2).filter
        (fun r => r.1 != hoje) = registos.filter (fun r => r.1 != hoje)) := by
  constructor
  · simp [append_or_replace, List.filter_append, List.filter_filter, bne,
      Bool.and_not_self]
  · simp [append_or_replace, List.filter_append, List.filter_filter, bne,
      Bool.not_and_self, Bool.and_self]

/-! ### FIRE and Coast-FIRE calculators (app.py lines 39–46) -/

/-- `calcular_fire(despesas_anuais, swr) = despesas_anuais / swr`. -/
noncomputable def calcular_fire (despesas_anuais swr : ℝ) : ℝ :=
  despesas_anuais / swr

/-- `calcular_coast_fire = fire / (1 + taxa_ajustada) ** anos_ate_reforma`
(integer exponent, Python float `**`, modelled by `zpow`). -/
noncomputable def calcular_coast_fire (despesas_anuais swr taxa_ajustada : ℝ)
    (anos_ate_reforma : ℤ) : ℝ :=
  calcular_fire despesas_anuais swr / (1 + taxa_ajustada) ^ anos_ate_reforma

/-! ### Input handling of `processar_simulacao` (app.py lines 48–120)

```python
try:
    dados_utilizador = carregar_dados_utilizador()
    if dados_utilizador.get("data_nascimento"):
        idade_atual = <derived from birth date>
    else:
        idade_atual = int(entradas["idade_atual"])
    idade_reforma = int(entradas["idade_reforma"])
    swr = float(entradas["swr"].replace(",", ".")) / 100
    despesas = float(entradas["despesas"].replace(",", "."))
    investido = float(entradas["investido"].replace(",", "."))
    retorno = float(entradas["retorno"].replace(",", ".")) / 100
    inflacao = float(entradas["inflacao"].replace(",", ".")) / 100
    valor_portefolio = float(entradas.get("valor_portefolio", "0").replace(",", "."))
    reforco_mensal = float(entradas.get("reforco_mensal", "0").replace(",", "."))
    ...
    return {...}, None
except Exception as e:
    return None, str(e)
```

The input dict is modelled as a partial map from the nine keys to strings,
the already-derived age from the stored birth date as an `Option ℤ`, Python
exceptions as `Except String`, and the `try/except` wrapper as the final
conversion to an `(Option Resultado × Option String)` pair.  `float()` and
`int()` are modelled on plain decimal/integer literals with an optional
leading minus — the only shapes this app's collaborators produce.  The
`guardar` (persist) branch is the record store modelled separately by
`append_or_replace` and is not re-modelled here. -/

/-- The nine keys `processar_simulacao` may look up in `entradas`. -/
inductive Chave
  | idade_atual
  | idade_reforma
  | swr
  | despesas
  | investido
  | retorno
  | inflacao
  | valor_portefolio
  | reforco_mensal
deriving DecidableEq

/-- `s.replace(",", ".")`. -/
def replace_virgula (s : List Char) : List Char :=
  s.map (fun ch => if ch = ',' then '.' else ch)

/-- Scan a leading digit run, returning its value, its length, and the rest. -/
def lerDigitos : List Char → ℕ → ℕ → ℕ × ℕ × List Char
  | [], acc, n => (acc, n, [])
  | ch :: resto, acc, n =>
    if ch.isDigit then lerDigitos resto (acc * 10 + (ch.toNat - 48)) (n + 1)
    else (acc, n, ch :: resto)

/-- Python `float()` on an unsigned plain decimal literal: digits, optionally
followed by a dot and more digits, at least one digit in total. -/
def parseFloatPos (s : List Char) : Option ℚ :=
  match lerDigitos s 0 0 with
  | (ip, ni, []) => if ni = 0 then none else some ((ip : ℚ))
  | (ip, ni, '.' :: resto) =>
    match lerDigitos resto 0 0 with
    | (fp, nf, []) =>
      if ni = 0 ∧ nf = 0 then none
      else some ((ip : ℚ) + (fp : ℚ) / 10 ^ nf)
    | _ => none
  | _ => none

/-- Python `float()` on a plain decimal literal with optional leading minus. -/
def parseFloat (s : List Char) : Option ℚ :=
  match s with
  | '-' :: resto => (parseFloatPos resto).map Neg.neg
  | _ => parseFloatPos s

/-- Python `int()` on a plain integer literal with optional leading minus. -/
def parseInt (s : List Char) : Option ℤ :=
  match s with
  | '-' :: resto =>
    match lerDigitos resto 0 0 with
    | (v, n, []) => if n = 0 then none else some (-(v : ℤ))
    | _ => none
  | _ =>
    match lerDigitos s 0 0 with
    | (v, n, []) => if n = 0 then none else some ((v : ℤ))
    | _ => none

/-- `int(entradas[k])`: a missing key raises `KeyError`, an unparseable value
raises `ValueError`. -/
def lerInt (e : Chave → Option String) (k : Chave) : Except String ℤ :=
  match e k with
  | none => .error ("KeyError")
  | some s =>
    match parseInt s.data with
    | none => .error ("ValueError: invalid literal for int")
    | some i => .ok i

/-- `float(entradas[k].replace(",", "."))`. -/
def lerFloat (e : Chave → Option String) (k : Chave) : Except String ℚ :=
  match e k with
  | none => .error ("KeyError")
  | some s =>
    match parseFloat (replace_virgula s.data) with
    | none => .error ("ValueError: could not convert string to float")
    | some q => .ok q

/-- `float(entradas.get(k, "0").replace(",", "."))` — the key is optional and
defaults to the string `"0"`. -/
def lerFloatDefault (e : Chave → Option String) (k : Chave) : Except String ℚ :=
  match parseFloat (replace_virgula ((e k).getD ("0")).data) with
  | none => .error ("ValueError: could not convert string to float")
  | some q => .ok q

/-- The parsed inputs of app.py lines 50–65. -/
structure EntradasLidas where
  idade_atual : ℤ
  idade_reforma : ℤ
  swr : ℚ
  despesas : ℚ
  investido : ℚ
  retorno : ℚ
  inflacao : ℚ
  valor_portefolio : ℚ
  reforco_mensal : ℚ
deriving DecidableEq

/-- App.py lines 50–65 in source order.  `idade_do_perfil` is the age already
derived from the stored birth date (`some` when `data_nascimento` is set, in
which case the `idade_atual` key is never read). -/
def lerEntradas (idade_do_perfil : Option ℤ) (e : Chave → Option String) :
    Except String EntradasLidas :=
  match (match idade_do_perfil with
         | some i => Except.ok i
         | none => lerInt e .idade_atual) with
  | .error m => .error m
  | .ok idade_atual =>
  match lerInt e .idade_reforma with
  | .error m => .error m
  | .ok idade_reforma =>
  match lerFloat e .swr with
  | .error m => .error m
  | .ok swr100 =>
  match lerFloat e .despesas with
  | .error m => .error m
  | .ok despesas =>
  match lerFloat e .investido with
  | .error m => .error m
  | .ok investido =>
  match lerFloat e .retorno with
  | .error m => .error m
  | .ok retorno100 =>
  match lerFloat e .inflacao with
  | .error m => .error m
  | .ok inflacao100 =>
  match lerFloatDefault e .valor_portefolio with
  | .error m => .error m
  | .ok valor_portefolio =>
  match lerFloatDefault e .reforco_mensal with
  | .error m => .error m
  | .ok reforco_mensal =>
    .ok ⟨idade_atual, idade_reforma, swr100 / 100, despesas, investido,
         retorno100 / 100, inflacao100 / 100, valor_portefolio, reforco_mensal⟩

/-- The returned result dict (the `sim_data` echo of the inputs is omitted:
it carries no computed state beyond `fire` and `coast`, which are included). -/
structure Resultado where
  fire : ℝ
  coast : ℝ
  projecao : List ℝ
  atingiu : Prop

/-- The body of the `try` block of `processar_simulacao` (app.py lines 49–117).
The three `.error` branches model the Python exceptions raised by the
arithmetic on the corresponding lines: `despesas / swr` raises
`ZeroDivisionError` when `swr == 0`; `fire / (1 + taxa) ** anos` raises
`ZeroDivisionError` when `1 + taxa == 0` and `anos != 0`; and when
`1 + taxa < 0` and the projection loop runs at least once (`anos >= 0`), the
fractional powers produce complex values and the `any(v >= fire ...)` scan
raises `TypeError`. -/
noncomputable def processar_nucleo (idade_do_perfil : Option ℤ)
    (e : Chave → Option String) : Except String Resultado :=
  match lerEntradas idade_do_perfil e with
  | .error m => .error m
  | .ok ent =>
    if ent.swr = 0 then .error ("ZeroDivisionError: float division by zero")
    else if 1 + (ent.retorno - ent.inflacao) = 0 ∧
        ent.idade_reforma - ent.idade_atual ≠ 0 then
      .error ("ZeroDivisionError: zero cannot give the coast divisor")
    else if 1 + (ent.retorno - ent.inflacao) < 0 ∧
        0 ≤ ent.idade_reforma - ent.idade_atual then
      .error ("TypeError: comparison not supported between complex and float")
    else
      .ok ⟨calcular_fire ((ent.despesas : ℝ)) ((ent.swr : ℝ)),
        calcular_coast_fire ((ent.despesas : ℝ)) ((ent.swr : ℝ))
          ((ent.retorno : ℝ) - (ent.inflacao : ℝ)) (ent.idade_reforma - ent.idade_atual),
        valores_proj ((ent.investido : ℝ)) ((ent.reforco_mensal : ℝ))
          ((ent.retorno : ℝ) - (ent.inflacao : ℝ)) (ent.idade_reforma - ent.idade_atual),
        atingiu_fire
          (valores_proj ((ent.investido : ℝ)) ((ent.reforco_mensal : ℝ))
            ((ent.retorno : ℝ) - (ent.inflacao : ℝ)) (ent.idade_reforma - ent.idade_atual))
          (calcular_fire ((ent.despesas : ℝ)) ((ent.swr : ℝ)))⟩

/-- `processar_simulacao` with its `try/except` wrapper: any raised exception
becomes the `(None, str(e))` pair, success becomes `(result, None)`. -/
noncomputable def processar_simulacao (idade_do_perfil : Option ℤ)
    (e : Chave → Option String) : Option Resultado × Option String :=
  match processar_nucleo idade_do_perfil e with
  | .ok r => (some r, none)
  | .error m => (none, some m)

instance instDecEqExcept {ε α : Type} [DecidableEq ε] [DecidableEq α] :
    DecidableEq (Except ε α)
  | .error x, .error y =>
    if h : x = y then .isTrue (congrArg Except.error h)
    else .isFalse (fun hc => h (Except.error.inj hc))
  | .error _, .ok _ => .isFalse (fun hc => Except.noConfusion hc)
  | .ok _, .error _ => .isFalse (fun hc => Except.noConfusion hc)
  | .ok x, .ok y =>
    if h : x = y then .isTrue (congrArg Except.ok h)
    else .isFalse (fun hc => h (Except.ok.inj hc))

lemma lerInt_ok_isSome {e : Chave → Option String} {k : Chave} {i : ℤ}
    (h : lerInt e k = .ok i) : (e k).isSome = true := by
  simp only [lerInt] at h
  split at h
  · simp at h
  · rename_i s hs
    rw [hs]
    rfl

lemma lerFloat_ok_isSome {e : Chave → Option String} {k : Chave} {q : ℚ}
    (h : lerFloat e k = .ok q) : (e k).isSome = true := by
  simp only [lerFloat] at h
  split at h
  · simp at h
  · rename_i s hs
    rw [hs]
    rfl

lemma lerEntradas_ok_keys {idade_do_perfil : Option ℤ} {e : Chave → Option String}
    {ent : EntradasLidas} (h : lerEntradas idade_do_perfil e = .ok ent) :
    (e .idade_reforma).isSome = true ∧ (e .swr).isSome = true ∧
      (e .despesas).isSome = true ∧ (e .investido).isSome = true ∧
      (e .retorno).isSome = true ∧ (e .inflacao).isSome = true := by
  simp only [lerEntradas] at h
  repeat' split at h
  all_goals try simp at h
  exact ⟨lerInt_ok_isSome (by assumption), lerFloat_ok_isSome (by assumption),
    lerFloat_ok_isSome (by assumption), lerFloat_ok_isSome (by assumption),
    lerFloat_ok_isSome (by assumption), lerFloat_ok_isSome (by assumption)⟩

lemma processar_nucleo_ok_ler {idade_do_perfil : Option ℤ}
    {e : Chave → Option String} {r : Resultado}
    (h : processar_nucleo idade_do_perfil e = .ok r) :
    ∃ ent, lerEntradas idade_do_perfil e = .ok ent := by
  simp only [processar_nucleo] at h
  split at h
  · simp at h
  · rename_i ent hent
    exact ⟨ent, hent⟩

/-- Claim C10 (amended): `processar_simulacao` treats `valor_portefolio` and
`reforco_mensal` as optional (defaulting to the string `"0"`), while
`idade_reforma`, `swr`, `despesas`, `investido`, `retorno` and `inflacao` are
required: any call with one of those keys absent returns `(None, message)`
rather than raising.  A call whose required values are all present and
parseable — and whose stored birth date or `idade_atual` key supplies the
current age — returns `(result, None)` provided no arithmetic exception
fires, i.e. `swr ≠ 0` and `1 + real rate > 0`; failures of those side
conditions (like unparseable values) also surface as `(None, message)`. -/
theorem processar_keys_spec (idade_do_perfil : Option ℤ) (e : Chave → Option String) :
    ((e .idade_reforma = none ∨ e .swr = none ∨ e .despesas = none ∨
        e .investido = none ∨ e .retorno = none ∨ e .inflacao = none) →
      (processar_simulacao idade_do_perfil e).1 = none ∧
        (processar_simulacao idade_do_perfil e).2.isSome = true) ∧
      (∀ ent : EntradasLidas, lerEntradas idade_do_perfil e = .ok ent →
        ent.swr ≠ 0 → 0 < 1 + (ent.retorno - ent.inflacao) →
        (processar_simulacao idade_do_perfil e).1.isSome = true ∧
          (processar_simulacao idade_do_perfil e).2 = none) := by
  constructor
  · intro hmiss
    cases hnuc : processar_nucleo idade_do_perfil e with
    | error m => simp [processar_simulacao, hnuc]
    | ok r =>
        exfalso
        obtain ⟨ent, hler⟩ := processar_nucleo_ok_ler hnuc
        have hk := lerEntradas_ok_keys hler
        rcases hmiss with h | h | h | h | h | h <;> rw [h] at hk <;> simp_all
  · intro ent hler hswr htaxa
    have h2 : ¬(1 + (ent.retorno - ent.inflacao) = 0 ∧
        ent.idade_reforma - ent.idade_atual ≠ 0) :=
      fun hand => (ne_of_gt htaxa) hand.1
    have h3 : ¬(1 + (ent.retorno - ent.inflacao) < 0 ∧
        0 ≤ ent.idade_reforma - ent.idade_atual) :=
      fun hand => absurd hand.1 (not_lt.mpr (le_of_lt htaxa))
    simp only [processar_simulacao, processar_nucleo, hler]
    rw [if_neg hswr, if_neg h2, if_neg h3]
    exact ⟨rfl, rfl⟩

/-- An input map carrying every required key with parseable values
(the two optional keys are absent and default to 0). -/
def entradasValidas : Chave → Option String := fun k =>
  match k with
  | .idade_reforma => some ("65")
  | .swr => some ("4")
  | .despesas => some ("24000")
  | .investido => some ("1000")
  | .retorno => some ("5")
  | .inflacao => some ("2")
  | _ => none

/-- An input map with no keys at all. -/
def entradasVazias : Chave → Option String := fun _ => none

lemma lerEntradas_validas_eval :
    lerEntradas (some 30) entradasValidas =
      .ok ⟨30, 65, 4 / 100, 24000, 1000, 5 / 100, 2 / 100, 0, 0⟩ := by
  have h1 : lerInt entradasValidas .idade_reforma = .ok 65 := by decide
  have h2 : lerFloat entradasValidas .swr = .ok 4 := by decide
  have h3 : lerFloat entradasValidas .despesas = .ok 24000 := by decide
  have h4 : lerFloat entradasValidas .investido = .ok 1000 := by decide
  have h5 : lerFloat entradasValidas .retorno = .ok 5 := by decide
  have h6 : lerFloat entradasValidas .inflacao = .ok 2 := by decide
  have h7 : lerFloatDefault entradasValidas .valor_portefolio = .ok 0 := by decide
  have h8 : lerFloatDefault entradasValidas .reforco_mensal = .ok 0 := by decide
  simp only [lerEntradas, h1, h2, h3, h4, h5, h6, h7, h8]

theorem processar_keys_spec_witness :
    ((processar_simulacao (some 30) entradasVazias).1 = none ∧
        (processar_simulacao (some 30) entradasVazias).2.isSome = true) ∧
      ((processar_simulacao (some 30) entradasValidas).1.isSome = true ∧
        (processar_simulacao (some 30) entradasValidas).2 = none) :=
  ⟨(processar_keys_spec (some 30) entradasVazias).1 (Or.inl rfl),
    (processar_keys_spec (some 30) entradasValidas).2
      ⟨30, 65, 4 / 100, 24000, 1000, 5 / 100, 2 / 100, 0, 0⟩
      lerEntradas_validas_eval (by norm_num) (by norm_num)⟩

/-- `entradasValidas` with the `swr` value replaced by an unparseable string. -/
def entradasSwrInvalida : Chave → Option String := fun k =>
  match k with
  | .swr => some ("x")
  | _ => entradasValidas k

/-- Claim C10 counterexample: an input dict containing every required key can
still yield `(None, message)` when a present value does not parse as a
number — here `swr = "x"` — so "a result together with None error otherwise"
does not hold as stated. -/
theorem processar_otherwise_counterexample :
    (entradasSwrInvalida .idade_reforma).isSome = true ∧
      (entradasSwrInvalida .swr).isSome = true ∧
      (entradasSwrInvalida .despesas).isSome = true ∧
      (entradasSwrInvalida .investido).isSome = true ∧
      (entradasSwrInvalida .retorno).isSome = true ∧
      (entradasSwrInvalida .inflacao).isSome = true ∧
      (processar_simulacao (some 30) entradasSwrInvalida).1 = none ∧
      (processar_simulacao (some 30) entradasSwrInvalida).2.isSome = true := by
  have hler : lerEntradas (some 30) entradasSwrInvalida =
      .error ("ValueError: could not convert string to float") := by decide
  refine ⟨rfl, rfl, rfl, rfl, rfl, rfl, ?_, ?_⟩ <;>
    simp [processar_simulacao, processar_nucleo, hler]

end FireTracker
